import Mathlib

/-!
Verification of the M.A.R.L.IN eDNA species classifier against its
natural-language specification.  The frontend dashboard data model and its
operations (Table.jsx, Badge.jsx, useData.js, ClusterDetail, SequenceDetail)
are embedded from the source; the backend inference pipeline, which exists in
the repository only as planned documentation, is modelled from the spec where
a claim requires it.

Decimal literals of the JavaScript source (novelty scores, confidences) are
embedded as exact rationals via pct n = n / 100.
-/

/-- Exact rational for a two-decimal JavaScript number literal: pct 85 is 0.85. -/
def pct (n : ℕ) : ℚ := mkRat n 100

/-- A sequence record of the mock dataset (src/frontend, mockData). -/
structure Sequence where
  id : String
  cluster : String
  length : ℕ
  quality : ℕ
  taxa : String
  sequence : String
  novelty_score : ℚ
  sample_date : String
  location : String
deriving DecidableEq, Repr

/-- A cluster record of the mock dataset (src/frontend, mockData). -/
structure Cluster where
  id : String
  sequence_count : ℕ
  consensus_sequence : String
  novelty_score : ℚ
  dominant_taxa : String
  avg_quality : ℕ
  sequences : List String
  locations : List String
deriving DecidableEq, Repr

/-- An entry of the cluster size distribution (src/frontend, mockData). -/
structure ClusterSize where
  cluster : String
  size : ℕ
  novelty : ℚ
deriving DecidableEq, Repr

/-- mockSequences from the frontend mock data, embedded record for record. -/
def mockSequences : List Sequence :=
  [ { id := "SEQ_001", cluster := "CL_01", length := 150, quality := 98,
      taxa := "Proteobacteria", sequence := "ATGCGTACGTAGCTAGCTAGCTAGCTAG...",
      novelty_score := pct 20, sample_date := "2024-03-15",
      location := "Pacific Ocean Site A" },
    { id := "SEQ_002", cluster := "CL_02", length := 140, quality := 95,
      taxa := "Novel", sequence := "GCTAGCATGCGTACGTAGCTAGCTAG...",
      novelty_score := pct 80, sample_date := "2024-03-15",
      location := "Pacific Ocean Site A" },
    { id := "SEQ_003", cluster := "CL_01", length := 155, quality := 96,
      taxa := "Proteobacteria", sequence := "CGTACGTAGCTAGCTATGCGTACGTAG...",
      novelty_score := pct 10, sample_date := "2024-03-16",
      location := "Pacific Ocean Site B" },
    { id := "SEQ_004", cluster := "CL_03", length := 142, quality := 89,
      taxa := "Bacteroidetes", sequence := "TAGCTAGCTAGCATGCGTACGTAGCT...",
      novelty_score := pct 30, sample_date := "2024-03-16",
      location := "Pacific Ocean Site B" },
    { id := "SEQ_005", cluster := "CL_04", length := 148, quality := 92,
      taxa := "Novel", sequence := "ATGCGTACGTAGCTAGCTAGCTAGCT...",
      novelty_score := pct 90, sample_date := "2024-03-17",
      location := "Atlantic Ocean Site C" },
    { id := "SEQ_006", cluster := "CL_05", length := 138, quality := 87,
      taxa := "Firmicutes", sequence := "GCTAGCTAGCATGCGTACGTAGCTAG...",
      novelty_score := pct 20, sample_date := "2024-03-17",
      location := "Atlantic Ocean Site C" },
    { id := "SEQ_007", cluster := "CL_02", length := 145, quality := 94,
      taxa := "Novel", sequence := "CGTACGTAGCTAGCTAGCATGCGTAC...",
      novelty_score := pct 70, sample_date := "2024-03-18",
      location := "Mediterranean Sea Site D" },
    { id := "SEQ_008", cluster := "CL_06", length := 152, quality := 91,
      taxa := "Actinobacteria", sequence := "TAGCTAGCATGCGTACGTAGCTAGCT...",
      novelty_score := pct 40, sample_date := "2024-03-18",
      location := "Mediterranean Sea Site D" },
    { id := "SEQ_009", cluster := "CL_07", length := 144, quality := 88,
      taxa := "Novel", sequence := "ATGCGTACGTAGCTAGCTAGCTAGCT...",
      novelty_score := pct 85, sample_date := "2024-03-19",
      location := "Arctic Ocean Site E" },
    { id := "SEQ_010", cluster := "CL_08", length := 147, quality := 93,
      taxa := "Cyanobacteria", sequence := "GCTAGCTAGCATGCGTACGTAGCTAG...",
      novelty_score := pct 10, sample_date := "2024-03-19",
      location := "Arctic Ocean Site E" } ]

/-- mockClusters from the frontend mock data, embedded record for record. -/
def mockClusters : List Cluster :=
  [ { id := "CL_01", sequence_count := 120,
      consensus_sequence := "ATGCGTACGTAGCTAGCTAGCTAGCTAGCGATCGATCGATC...",
      novelty_score := pct 20, dominant_taxa := "Proteobacteria",
      avg_quality := 97, sequences := ["SEQ_001", "SEQ_003"],
      locations := ["Pacific Ocean Site A", "Pacific Ocean Site B"] },
    { id := "CL_02", sequence_count := 85,
      consensus_sequence := "GCTAGCATGCGTACGTAGCTAGCTAGGATCGATCGATCGAT...",
      novelty_score := pct 80, dominant_taxa := "Novel",
      avg_quality := 94, sequences := ["SEQ_002", "SEQ_007"],
      locations := ["Pacific Ocean Site A", "Mediterranean Sea Site D"] },
    { id := "CL_03", sequence_count := 67,
      consensus_sequence := "TAGCTAGCTAGCATGCGTACGTAGCTGATCGATCGATCGAT...",
      novelty_score := pct 30, dominant_taxa := "Bacteroidetes",
      avg_quality := 89, sequences := ["SEQ_004"],
      locations := ["Pacific Ocean Site B"] },
    { id := "CL_04", sequence_count := 42,
      consensus_sequence := "ATGCGTACGTAGCTAGCTAGCTAGCTGATCGATCGATCGAT...",
      novelty_score := pct 90, dominant_taxa := "Novel",
      avg_quality := 92, sequences := ["SEQ_005"],
      locations := ["Atlantic Ocean Site C"] },
    { id := "CL_05", sequence_count := 38,
      consensus_sequence := "GCTAGCTAGCATGCGTACGTAGCTAGGATCGATCGATCGAT...",
      novelty_score := pct 20, dominant_taxa := "Firmicutes",
      avg_quality := 87, sequences := ["SEQ_006"],
      locations := ["Atlantic Ocean Site C"] } ]

/-- mockClusterSizes from the frontend mock data, embedded entry for entry. -/
def mockClusterSizes : List ClusterSize :=
  [ { cluster := "CL_01", size := 120, novelty := pct 20 },
    { cluster := "CL_02", size := 85, novelty := pct 80 },
    { cluster := "CL_03", size := 67, novelty := pct 30 },
    { cluster := "CL_04", size := 42, novelty := pct 90 },
    { cluster := "CL_05", size := 38, novelty := pct 20 },
    { cluster := "CL_06", size := 35, novelty := pct 40 },
    { cluster := "CL_07", size := 28, novelty := pct 85 },
    { cluster := "CL_08", size := 24, novelty := pct 10 },
    { cluster := "CL_09", size := 19, novelty := pct 60 },
    { cluster := "CL_10", size := 15, novelty := pct 30 } ]

/-- The label of the NoveltyBadge component (Badge.jsx): strictly above 0.7 the
badge reads Novel, strictly above 0.4 it reads Partial, otherwise Known. -/
def noveltyBadgeLabel (score : ℚ) : String :=
  if score > pct 70 then ("Novel") else if score > pct 40 then ("Partial") else ("Known")

/-- JavaScript truthiness of an optional string filter value: active when
present and non-empty. -/
def strActive : Option String → Bool
  | none => false
  | some s => !(s == "")

/-- JavaScript truthiness of an optional numeric filter value: active when
present and non-zero. -/
def natActive : Option ℕ → Bool
  | none => false
  | some n => !(n == 0)

/-- The filter object accepted by the useSequences hook (useData.js). -/
structure SeqFilters where
  search : Option String
  cluster : Option String
  taxa : Option String
  minQuality : Option ℕ
deriving DecidableEq

/-- ASCII lower-casing of one character, as String.prototype.toLowerCase acts
on the ASCII identifiers of the mock data. -/
def lowChar (c : Char) : Char :=
  if 'A' ≤ c ∧ c ≤ 'Z' then Char.ofNat (c.toNat + 32) else c

/-- The character list of a string, lower-cased. -/
def lowerChars (s : String) : List Char := s.data.map lowChar

/-- Boolean prefix test on character lists. -/
def isPrefOf : List Char → List Char → Bool
  | [], _ => true
  | _ :: _, [] => false
  | a :: as, b :: bs => a == b && isPrefOf as bs

/-- Boolean substring test on character lists, as String.prototype.includes. -/
def containsSub : List Char → List Char → Bool
  | [], pat => pat.isEmpty
  | h :: t, pat => isPrefOf pat (h :: t) || containsSub t pat

/-- Case-insensitive substring test, as x.toLowerCase().includes(sub) with the
pattern lower-cased by the caller (useData.js). -/
def jsIncludes (hay sub : String) : Bool := containsSub (lowerChars hay) (lowerChars sub)

/-- The filter chain of the useSequences hook (useData.js): search over id,
cluster and taxa case-insensitively, then exact cluster, exact taxa, and a
minimum quality bound, each applied only when the filter value is truthy. -/
def filterSequences (f : SeqFilters) (l : List Sequence) : List Sequence :=
  let l1 := if strActive f.search then
      l.filter (fun s =>
        jsIncludes s.id (f.search.getD ("")) || jsIncludes s.cluster (f.search.getD ("")) ||
          jsIncludes s.taxa (f.search.getD ("")))
    else l
  let l2 := if strActive f.cluster then l1.filter (fun s => s.cluster == f.cluster.getD ("")) else l1
  let l3 := if strActive f.taxa then l2.filter (fun s => s.taxa == f.taxa.getD ("")) else l2
  if natActive f.minQuality then l3.filter (fun s => f.minQuality.getD 0 ≤ s.quality) else l3

/-- The useSequences hook applied to the mock dataset (useData.js). -/
def useSequences (f : SeqFilters) : List Sequence := filterSequences f mockSequences

/-- The empty filter object, the default argument of useSequences. -/
def noFilters : SeqFilters := ⟨none, none, none, none⟩

/-- The member list ClusterDetail recomputes: the sequences of the dataset
whose cluster field equals the given cluster id. -/
def memberSequences (id : String) : List Sequence :=
  (useSequences noFilters).filter (fun s => s.cluster == id)

/-- The specification predicate for one sequence against a filter object: the
sequence satisfies every active filter.  Stated from the words of the claim,
to be compared with the filter chain of the source. -/
def matchesFilters (f : SeqFilters) (s : Sequence) : Bool :=
  (!strActive f.search ||
      (jsIncludes s.id (f.search.getD ("")) || jsIncludes s.cluster (f.search.getD ("")) ||
        jsIncludes s.taxa (f.search.getD ("")))) &&
    ((!strActive f.cluster || s.cluster == f.cluster.getD ("")) &&
      ((!strActive f.taxa || s.taxa == f.taxa.getD ("")) &&
        (!natActive f.minQuality || f.minQuality.getD 0 ≤ s.quality)))

/-- A JavaScript cell value of a sortable table column: a string or a number. -/
inductive JSVal where
  | str (s : String)
  | num (q : ℚ)
deriving DecidableEq, Repr

/-- Whether a cell value is a string. -/
def JSVal.isStr : JSVal → Bool
  | .str _ => true
  | .num _ => false

/-- Whether a cell value is a number. -/
def JSVal.isNum : JSVal → Bool
  | .str _ => false
  | .num _ => true

/-- The strict comparison performed by the Table sort comparator (Table.jsx):
string values are lower-cased before comparison, numbers compare as numbers,
and values of different types do not compare. -/
def jsLtP : JSVal → JSVal → Prop
  | .str a, .str b => lowerChars a < lowerChars b
  | .num a, .num b => a < b
  | .str _, .num _ => False
  | .num _, .str _ => False

instance : (a b : JSVal) → Decidable (jsLtP a b)
  | .str a, .str b => inferInstanceAs (Decidable (lowerChars a < lowerChars b))
  | .str _, .num _ => isFalse (fun h => h)
  | .num _, .str _ => isFalse (fun h => h)
  | .num a, .num b => inferInstanceAs (Decidable (a < b))

/-- The Table sort comparator (Table.jsx): -1, 1 or 0 for ascending order and
with the sign flipped for descending order. -/
def jsCompare (asc : Bool) (a b : JSVal) : Int :=
  if jsLtP a b then (if asc then -1 else 1)
  else if jsLtP b a then (if asc then 1 else -1)
  else 0

/-- The order in which the comparator places two rows: the comparator result
is at most zero on the values of the sort column. -/
def jsLe {α : Type} (asc : Bool) (key : α → JSVal) (x y : α) : Bool :=
  decide (jsCompare asc (key x) (key y) ≤ 0)

/-- Stable insertion of one row into a run already in comparator order. -/
def insertLe {α : Type} (le : α → α → Bool) (a : α) : List α → List α
  | [] => [a]
  | b :: bs => if le a b then a :: b :: bs else b :: insertLe le a bs

/-- Stable comparison sort, realizing the Array.prototype.sort call of the
Table component on the copied data array. -/
def sortBy {α : Type} (le : α → α → Bool) : List α → List α
  | [] => []
  | a :: as => insertLe le a (sortBy le as)

/-- sortedData of the Table component (Table.jsx): the data prop unchanged
when no sort column is selected, otherwise a copy sorted by the comparator on
the selected column. -/
def sortedData {α : Type} (sortField : Option (α → JSVal)) (asc : Bool)
    (data : List α) : List α :=
  match sortField with
  | none => data
  | some key => sortBy (jsLe asc key) data

/-- paginatedData of the Table component (Table.jsx): the slice of the sorted
rows for the current page when pagination is enabled. -/
def paginatedData {α : Type} (pagination : Bool) (currentPage pageSize : ℕ)
    (sorted : List α) : List α :=
  if pagination then (sorted.drop ((currentPage - 1) * pageSize)).take pageSize else sorted

/-- totalPages of the Table component: the ceiling of data.length / pageSize
computed on natural numbers. -/
def totalPages (n pageSize : ℕ) : ℕ := (n + pageSize - 1) / pageSize

/-- The first result number printed by the pagination footer. -/
def showingFrom (currentPage pageSize : ℕ) : ℕ := (currentPage - 1) * pageSize + 1

/-- The last result number printed by the pagination footer. -/
def showingTo (currentPage pageSize n : ℕ) : ℕ := min (currentPage * pageSize) n

/-- Whether the pagination footer is rendered (Table.jsx): pagination enabled
and more than one page. -/
def footerVisible (pagination : Bool) (n pageSize : ℕ) : Bool :=
  pagination && decide (1 < totalPages n pageSize)

/-- One level of the taxonomic classification card of SequenceDetail. -/
structure TaxLevel where
  level : String
  name : String
  confidence : ℚ
deriving DecidableEq, Repr

/-- The hierarchical classification list rendered by SequenceDetail for a
sequence with the given taxa value: Kingdom, Phylum, Class, Order, Family with
the confidences of the source, which depend only on whether the taxa is
Novel. -/
def taxHierarchy (taxa : String) : List TaxLevel :=
  [ { level := "Kingdom", name := "Bacteria", confidence := pct 98 },
    { level := "Phylum", name := if taxa = "Novel" then ("Unknown") else taxa,
      confidence := if taxa = "Novel" then pct 45 else pct 92 },
    { level := "Class", name := if taxa = "Novel" then ("Unknown") else taxa ++ "ia",
      confidence := if taxa = "Novel" then pct 32 else pct 87 },
    { level := "Order", name := if taxa = "Novel" then ("Unknown") else taxa ++ "ales",
      confidence := if taxa = "Novel" then pct 21 else pct 78 },
    { level := "Family", name := if taxa = "Novel" then ("Unknown") else taxa ++ "aceae",
      confidence := if taxa = "Novel" then pct 15 else pct 65 } ]

/-- Modelled from the spec: the preprocessing configuration of section 4.1
(the backend inference pipeline is present in the repository only as planned
documentation).  The disallowed-character threshold is a fraction expressed in
permille. -/
structure PreprocConfig where
  kmerSize : ℕ
  minLength : ℕ
  maxBadPermille : ℕ
deriving DecidableEq, Repr

/-- ASCII upper-casing of one character, the normalization rule applied to a
raw read. -/
def upChar (c : Char) : Char :=
  if 'a' ≤ c ∧ c ≤ 'z' then Char.ofNat (c.toNat - 32) else c

/-- The normalized character list of a raw read. -/
def normalizeRead (read : String) : List Char := read.data.map upChar

/-- Whether a normalized character is an allowed nucleotide. -/
def isNucleotide (c : Char) : Bool := c == 'A' || c == 'C' || c == 'G' || c == 'T'

/-- Modelled from the spec: the error taxonomy entry for malformed input
(section 7). -/
inductive PipelineError where
  | InvalidSequence
deriving DecidableEq, Repr

/-- Numeric code of one nucleotide. -/
def encodeChar (c : Char) : ℕ :=
  if c == 'A' then 0 else if c == 'C' then 1 else if c == 'G' then 2 else 3

/-- Numeric encoding of one k-mer, base four. -/
def encodeKmer (w : List Char) : ℕ := w.foldl (fun acc c => 4 * acc + encodeChar c) 0

/-- The overlapping fixed-size k-mer token list of a normalized read. -/
def kmerTokens (k : ℕ) (chars : List Char) : List ℕ :=
  (List.range (chars.length + 1 - k)).map (fun i => encodeKmer ((chars.drop i).take k))

/-- Modelled from the spec: canonicalize of section 4.1 (missing from src).
Rejects reads shorter than the configured minimum length or whose
disallowed-character fraction exceeds the configured threshold, then tokenizes
the normalized read into overlapping k-mers. -/
def canonicalize (read : String) (config : PreprocConfig) : Except PipelineError (List ℕ) :=
  let chars := normalizeRead read
  if chars.length < config.minLength then .error .InvalidSequence
  else if config.maxBadPermille * chars.length <
      1000 * (chars.filter (fun c => !isNucleotide c)).length then .error .InvalidSequence
  else .ok (kmerTokens config.kmerSize chars)

/-- Modelled from the spec: a Prediction (section 3) for one read, its ranked
taxon and confidence pairs, the bundle version used and the fallback flag. -/
structure Prediction where
  ranked : List (String × ℚ)
  bundle_version : String
  fallback_routed : Bool
deriving DecidableEq, Repr

/-- Modelled from the spec: the parts of a ModelBundle that the serving path
reads (section 4.7); the embedder and the classifier head are abstracted as
one scoring function from token sequences to ranked taxon and confidence
pairs. -/
structure ModelBundle where
  version : String
  config : PreprocConfig
  scoreFn : List ℕ → List (String × ℚ)
  fallbackThreshold : ℚ

/-- The top predicted confidence of a ranked list. -/
def topConfidence : List (String × ℚ) → ℚ
  | [] => 0
  | (_, c) :: _ => c

/-- The raw model output for a read under a bundle, with an empty list for a
rejected read. -/
def modelScores (b : ModelBundle) (read : String) : List (String × ℚ) :=
  match canonicalize read b.config with
  | .ok toks => b.scoreFn toks
  | .error _ => []

/-- Modelled from the spec: the fresh preprocessing, embedding, scoring and
confidence-gate path of one inference request (section 4.7). -/
def runPipeline (b : ModelBundle) (read : String) : Except PipelineError Prediction :=
  match canonicalize read b.config with
  | .error e => .error e
  | .ok toks =>
    let ranked := b.scoreFn toks
    .ok { ranked := ranked, bundle_version := b.version,
          fallback_routed := decide (topConfidence ranked < b.fallbackThreshold) }

/-- Modelled from the spec: the terminal states of the per-request state
machine of section 4.7. -/
inductive ReqState where
  | RESOLVED
  | FALLBACK_ROUTED
deriving DecidableEq, Repr

/-- The terminal state a scored request is marked with. -/
def finalState (p : Prediction) : ReqState :=
  if p.fallback_routed then .FALLBACK_ROUTED else .RESOLVED

/-- Modelled from the spec: the canonical cache key, the pair of normalized
read and bundle version (section 4.7). -/
abbrev CacheKey := List Char × String

/-- The cache key of a read under a bundle. -/
def cacheKey (b : ModelBundle) (read : String) : CacheKey := (normalizeRead read, b.version)

/-- Modelled from the spec: the ResultCache, an association of canonical keys
to Predictions (section 4.7). -/
abbrev ResultCache := List (CacheKey × Prediction)

/-- Modelled from the spec: classify with the ResultCache consulted before
preprocessing (section 4.7).  Returns the result, the updated cache and the
cache-hit signal. -/
def classify (b : ModelBundle) (cache : ResultCache) (read : String) :
    Except PipelineError Prediction × ResultCache × Bool :=
  match List.lookup (cacheKey b read) cache with
  | some p => (.ok p, cache, true)
  | none =>
    match runPipeline b read with
    | .ok p => (.ok p, (cacheKey b read, p) :: cache, false)
    | .error e => (.error e, cache, false)

/-- A cache state is coherent for a bundle when every stored entry is the
fresh computation for its key. -/
def CacheCoherent (b : ModelBundle) (cache : ResultCache) : Prop :=
  ∀ read p, List.lookup (cacheKey b read) cache = some p → runPipeline b read = .ok p

/-- A concrete preprocessing configuration used to exercise the model. -/
def demoConfig : PreprocConfig := { kmerSize := 2, minLength := 4, maxBadPermille := 100 }

/-- A concrete scoring function whose top confidence is 0.3. -/
def demoScores : List ℕ → List (String × ℚ) :=
  fun _ => [("Proteobacteria", pct 30), ("Bacteroidetes", pct 20)]

/-- A concrete bundle with fallback threshold 0.6. -/
def demoBundle : ModelBundle :=
  { version := "v1", config := demoConfig, scoreFn := demoScores,
    fallbackThreshold := pct 60 }

/-- The prediction the demo bundle produces for any valid read: the best
guess is kept and the fallback flag is set. -/
def demoPrediction : Prediction :=
  { ranked := [("Proteobacteria", pct 30), ("Bacteroidetes", pct 20)],
    bundle_version := "v1", fallback_routed := true }

/-! Helper lemmas about the comparison sort of the Table component. -/

/-- Inserting an element into a list yields the element or a previous member. -/
theorem mem_insertLe {α : Type} (le : α → α → Bool) (a : α) :
    ∀ (l : List α) (x : α), x ∈ insertLe le a l → x = a ∨ x ∈ l
  | [], x, h => by simpa [insertLe] using h
  | b :: bs, x, h => by
    by_cases hab : le a b = true
    · simp only [insertLe, if_pos hab] at h
      rcases List.mem_cons.mp h with h | h
      · exact Or.inl h
      · exact Or.inr h
    · simp only [insertLe, if_neg hab] at h
      rcases List.mem_cons.mp h with h | h
      · exact Or.inr (List.mem_cons.mpr (Or.inl h))
      · rcases mem_insertLe le a bs x h with h | h
        · exact Or.inl h
        · exact Or.inr (List.mem_cons.mpr (Or.inr h))

/-- Insertion produces a permutation of consing. -/
theorem perm_insertLe {α : Type} (le : α → α → Bool) (a : α) :
    ∀ l : List α, (insertLe le a l).Perm (a :: l)
  | [] => List.Perm.refl _
  | b :: bs => by
    by_cases hab : le a b = true
    · simp [insertLe, hab]
    · simp only [insertLe, if_neg hab]
      exact ((perm_insertLe le a bs).cons b).trans (List.Perm.swap a b bs)

/-- The sort is a permutation of its input: the data array is rearranged, not
changed. -/
theorem perm_sortBy {α : Type} (le : α → α → Bool) :
    ∀ l : List α, (sortBy le l).Perm l
  | [] => List.Perm.refl _
  | a :: as =>
    (perm_insertLe le a (sortBy le as)).trans ((perm_sortBy le as).cons a)

/-- Inserting into a pairwise-ordered run keeps it pairwise ordered, given
totality and transitivity of the comparison on the elements involved. -/
theorem pairwise_insertLe {α : Type} (le : α → α → Bool) (a : α) :
    ∀ l : List α, l.Pairwise (fun x y => le x y = true) →
      (∀ b ∈ l, le a b = true ∨ le b a = true) →
      (∀ b ∈ l, ∀ c ∈ l, le a b = true → le b c = true → le a c = true) →
      (insertLe le a l).Pairwise (fun x y => le x y = true)
  | [], _, _, _ => List.pairwise_singleton _ _
  | b :: bs, hpair, htot, htrans => by
    rcases List.pairwise_cons.mp hpair with ⟨hb, hbs⟩
    by_cases hab : le a b = true
    · simp only [insertLe, if_pos hab]
      refine List.pairwise_cons.mpr ⟨?_, hpair⟩
      intro c hc
      rcases List.mem_cons.mp hc with rfl | hc
      · exact hab
      · exact htrans b (List.mem_cons_self _ _) c (List.mem_cons_of_mem _ hc) hab (hb c hc)
    · simp only [insertLe, if_neg hab]
      refine List.pairwise_cons.mpr ⟨?_, ?_⟩
      · intro c hc
        rcases mem_insertLe le a bs c hc with hca | hc
        · subst hca
          rcases htot b (List.mem_cons_self _ _) with h | h
          · exact absurd h hab
          · exact h
        · exact hb c hc
      · exact pairwise_insertLe le a bs hbs
          (fun x hx => htot x (List.mem_cons_of_mem _ hx))
          (fun x hx y hy => htrans x (List.mem_cons_of_mem _ hx) y (List.mem_cons_of_mem _ hy))

/-- The sort output is pairwise ordered by the comparison, given totality and
transitivity of the comparison on the input elements. -/
theorem pairwise_sortBy {α : Type} (le : α → α → Bool) :
    ∀ l : List α, (∀ a ∈ l, ∀ b ∈ l, le a b = true ∨ le b a = true) →
      (∀ a ∈ l, ∀ b ∈ l, ∀ c ∈ l, le a b = true → le b c = true → le a c = true) →
      (sortBy le l).Pairwise (fun x y => le x y = true)
  | [], _, _ => List.Pairwise.nil
  | a :: as, htot, htrans => by
    have hmem : ∀ x ∈ sortBy le as, x ∈ as :=
      fun x hx => (perm_sortBy le as).mem_iff.mp hx
    refine pairwise_insertLe le a (sortBy le as) ?_ ?_ ?_
    · exact pairwise_sortBy le as
        (fun x hx y hy => htot x (List.mem_cons_of_mem _ hx) y (List.mem_cons_of_mem _ hy))
        (fun x hx y hy z hz => htrans x (List.mem_cons_of_mem _ hx) y
          (List.mem_cons_of_mem _ hy) z (List.mem_cons_of_mem _ hz))
    · exact fun b hb => htot a (List.mem_cons_self _ _) b (List.mem_cons_of_mem _ (hmem b hb))
    · exact fun b hb c hc => htrans a (List.mem_cons_self _ _) b
        (List.mem_cons_of_mem _ (hmem b hb)) c (List.mem_cons_of_mem _ (hmem c hc))

/-- A string-tagged cell value is built from a string. -/
theorem isStr_shape {a : JSVal} (h : a.isStr = true) : ∃ s, a = .str s := by
  cases a with
  | str s => exact ⟨s, rfl⟩
  | num q => exact absurd h (fun hh => Bool.noConfusion hh)

/-- A number-tagged cell value is built from a number. -/
theorem isNum_shape {a : JSVal} (h : a.isNum = true) : ∃ q, a = .num q := by
  cases a with
  | str s => exact absurd h (fun hh => Bool.noConfusion hh)
  | num q => exact ⟨q, rfl⟩

/-- The comparator strict order is asymmetric. -/
theorem jsLtP_asymm {a b : JSVal} (h : jsLtP a b) : ¬ jsLtP b a := by
  cases a <;> cases b
  · exact lt_asymm h
  · exact h.elim
  · exact h.elim
  · exact lt_asymm h

/-- Ascending comparator at most zero means the second value is not strictly
below the first. -/
theorem jsCompare_asc_le {a b : JSVal} : jsCompare true a b ≤ 0 ↔ ¬ jsLtP b a := by
  unfold jsCompare
  by_cases h1 : jsLtP a b
  · rw [if_pos h1]
    exact ⟨fun _ => jsLtP_asymm h1, fun _ => by decide⟩
  · rw [if_neg h1]
    by_cases h2 : jsLtP b a
    · rw [if_pos h2]
      exact ⟨fun hle => absurd hle (by decide), fun hn => absurd h2 hn⟩
    · rw [if_neg h2]
      exact ⟨fun _ => h2, fun _ => by decide⟩

/-- Descending comparator at most zero means the first value is not strictly
below the second. -/
theorem jsCompare_desc_le {a b : JSVal} : jsCompare false a b ≤ 0 ↔ ¬ jsLtP a b := by
  unfold jsCompare
  by_cases h1 : jsLtP a b
  · rw [if_pos h1]
    exact ⟨fun hle => absurd hle (by decide), fun hn => absurd h1 hn⟩
  · rw [if_neg h1]
    by_cases h2 : jsLtP b a
    · rw [if_pos h2]
      exact ⟨fun _ => h1, fun _ => by decide⟩
    · rw [if_neg h2]
      exact ⟨fun _ => h1, fun _ => by decide⟩

/-- The row order induced by the comparator is total. -/
theorem jsLe_total {α : Type} (asc : Bool) (key : α → JSVal) (x y : α) :
    jsLe asc key x y = true ∨ jsLe asc key y x = true := by
  unfold jsLe
  cases asc
  · simp only [decide_eq_true_eq, jsCompare_desc_le]
    by_cases h : jsLtP (key x) (key y)
    · exact Or.inr (jsLtP_asymm h)
    · exact Or.inl h
  · simp only [decide_eq_true_eq, jsCompare_asc_le]
    by_cases h : jsLtP (key y) (key x)
    · exact Or.inr (jsLtP_asymm h)
    · exact Or.inl h

/-- On three homogeneous cell values the negations of the strict order compose
transitively. -/
theorem jsLtP_le_trans {a b c : JSVal}
    (hhom : (a.isStr = true ∧ b.isStr = true ∧ c.isStr = true) ∨
      (a.isNum = true ∧ b.isNum = true ∧ c.isNum = true))
    (h1 : ¬ jsLtP b a) (h2 : ¬ jsLtP c b) : ¬ jsLtP c a := by
  rcases hhom with ⟨ha, hb, hc⟩ | ⟨ha, hb, hc⟩
  · obtain ⟨sa, rfl⟩ := isStr_shape ha
    obtain ⟨sb, rfl⟩ := isStr_shape hb
    obtain ⟨sc, rfl⟩ := isStr_shape hc
    simp only [jsLtP, not_lt] at h1 h2 ⊢
    exact h1.trans h2
  · obtain ⟨qa, rfl⟩ := isNum_shape ha
    obtain ⟨qb, rfl⟩ := isNum_shape hb
    obtain ⟨qc, rfl⟩ := isNum_shape hc
    simp only [jsLtP, not_lt] at h1 h2 ⊢
    exact h1.trans h2

/-- The row order induced by the comparator is transitive on rows whose sort
column values have one common type. -/
theorem jsLe_trans_of_hom {α : Type} (asc : Bool) (key : α → JSVal) {x y z : α}
    (hhom : ((key x).isStr = true ∧ (key y).isStr = true ∧ (key z).isStr = true) ∨
      ((key x).isNum = true ∧ (key y).isNum = true ∧ (key z).isNum = true))
    (h1 : jsLe asc key x y = true) (h2 : jsLe asc key y z = true) :
    jsLe asc key x z = true := by
  unfold jsLe at h1 h2 ⊢
  cases asc
  · simp only [decide_eq_true_eq, jsCompare_desc_le] at h1 h2 ⊢
    refine jsLtP_le_trans ?_ h2 h1
    rcases hhom with ⟨hx, hy, hz⟩ | ⟨hx, hy, hz⟩
    · exact Or.inl ⟨hz, hy, hx⟩
    · exact Or.inr ⟨hz, hy, hx⟩
  · simp only [decide_eq_true_eq, jsCompare_asc_le] at h1 h2 ⊢
    exact jsLtP_le_trans hhom h1 h2

/-- totalPages agrees with the rational ceiling of data length over page
size. -/
theorem totalPages_eq_ceil (n ps : ℕ) (hps : 0 < ps) :
    totalPages n ps = ⌈(n : ℚ) / (ps : ℚ)⌉₊ := by
  rcases Nat.eq_zero_or_pos n with hn | hn
  · subst hn
    have h0 : totalPages 0 ps = 0 := Nat.div_eq_of_lt (by omega)
    simp [h0]
  · have hmle : totalPages n ps * ps ≤ n + ps - 1 := Nat.div_mul_le_self _ _
    have hlt : n + ps - 1 < (totalPages n ps + 1) * ps :=
      (Nat.div_lt_iff_lt_mul hps).mp (Nat.lt_succ_self _)
    have hm1 : 1 ≤ totalPages n ps := by
      simp only [totalPages]
      rw [Nat.le_div_iff_mul_le hps]
      omega
    have hub : n ≤ totalPages n ps * ps := by
      rw [Nat.succ_mul] at hlt
      omega
    have hlb : (totalPages n ps - 1) * ps < n := by
      rw [Nat.sub_mul, one_mul]
      omega
    symm
    rw [Nat.ceil_eq_iff (by omega)]
    constructor
    · rw [lt_div_iff₀ (by exact_mod_cast hps)]
      exact_mod_cast hlb
    · rw [div_le_iff₀ (by exact_mod_cast hps)]
      exact_mod_cast hub

/-- The filter chain of useSequences equals one filter by the conjunction of
the active filters. -/
theorem filterSequences_eq (f : SeqFilters) (l : List Sequence) :
    filterSequences f l = l.filter (matchesFilters f) := by
  unfold filterSequences matchesFilters
  cases h1 : strActive f.search <;> cases h2 : strActive f.cluster <;>
    cases h3 : strActive f.taxa <;> cases h4 : natActive f.minQuality <;>
      simp [h1, h2, h3, h4, List.filter_filter, Bool.and_comm, Bool.and_left_comm,
        Bool.and_assoc]

/-- The empty cache is coherent for every bundle. -/
theorem cacheCoherent_nil (b : ModelBundle) : CacheCoherent b [] :=
  fun _ _ h => Option.noConfusion h

/-! The claims. -/

/-- Claim C1, counterexample: the claim asserts every sequence's cluster
identifier refers to an existing record in mockClusters, but a sequence of
the dataset (SEQ_008, cluster CL_06) matches no record in mockClusters, whose
ids stop at CL_05. -/
theorem C1_partition_counterexample :
    ∃ s ∈ mockSequences, s.id = "SEQ_008" ∧ s.cluster = "CL_06" ∧
      ∀ c ∈ mockClusters, c.id ≠ s.cluster := by decide

/-- Claim C1, amended: over the cluster records that do exist, membership is a
partition: each record's member list is exactly the sequences whose cluster
field is its id, no sequence id is listed by two distinct records, and every
sequence either matches a record of mockClusters or carries one of the
unlisted cluster ids CL_06, CL_07, CL_08. -/
theorem C1_partition_amended :
    (∀ c ∈ mockClusters, (memberSequences c.id).map Sequence.id = c.sequences) ∧
    (∀ c1 ∈ mockClusters, ∀ c2 ∈ mockClusters, c1.id ≠ c2.id →
      ∀ s ∈ c1.sequences, s ∉ c2.sequences) ∧
    (∀ s ∈ mockSequences,
      (∃ c ∈ mockClusters, c.id = s.cluster) ∨ s.cluster ∈ ["CL_06", "CL_07", "CL_08"]) := by
  decide

/-- Claim C1, witness: the amended statement applied to the first cluster
record, CL_01. -/
theorem C1_partition_amended_witness :
    mockClusters.get ⟨0, by decide⟩ ∈ mockClusters ∧
    (memberSequences (mockClusters.get ⟨0, by decide⟩).id).map Sequence.id =
      (mockClusters.get ⟨0, by decide⟩).sequences :=
  ⟨by decide, C1_partition_amended.1 _ (by decide)⟩

/-- Claim C2: every novelty score of the mock data, in the cluster records,
the cluster size distribution and the sequence records, lies in the closed
unit interval. -/
theorem C2_novelty_scores_in_unit_interval :
    (∀ c ∈ mockClusters, 0 ≤ c.novelty_score ∧ c.novelty_score ≤ 1) ∧
    (∀ e ∈ mockClusterSizes, 0 ≤ e.novelty ∧ e.novelty ≤ 1) ∧
    (∀ s ∈ mockSequences, 0 ≤ s.novelty_score ∧ s.novelty_score ≤ 1) := by decide

/-- Claim C2, witness: the bound applied to the first cluster record. -/
theorem C2_novelty_scores_witness :
    mockClusters.get ⟨0, by decide⟩ ∈ mockClusters ∧
    (0 ≤ (mockClusters.get ⟨0, by decide⟩).novelty_score ∧
      (mockClusters.get ⟨0, by decide⟩).novelty_score ≤ 1) :=
  ⟨by decide, C2_novelty_scores_in_unit_interval.1 _ (by decide)⟩

/-- Claim C3, counterexample: the claim asserts the taxa field is Novel
exactly when the novelty score strictly exceeds 0.7, the NoveltyBadge
threshold; SEQ_007 has taxa Novel with score exactly 0.7, refuting the
biconditional. -/
theorem C3_novel_tag_counterexample :
    ¬ (∀ s ∈ mockSequences, (s.taxa = "Novel" ↔ pct 70 < s.novelty_score)) := by decide

/-- Claim C3, amended: the taxa field is Novel exactly when the novelty score
is at least 0.7; since the badge label requires a score strictly above 0.7,
a sequence tagged Novel (SEQ_007, score 0.7) renders a badge label other than
Novel, so the taxa tag and the badge can disagree. -/
theorem C3_novel_tag_amended :
    (∀ s ∈ mockSequences, (s.taxa = "Novel" ↔ pct 70 ≤ s.novelty_score)) ∧
    (∃ s ∈ mockSequences, s.taxa = "Novel" ∧ noveltyBadgeLabel s.novelty_score ≠ "Novel") := by
  decide

/-- Claim C3, witness: the amended biconditional applied to SEQ_002. -/
theorem C3_novel_tag_amended_witness :
    mockSequences.get ⟨1, by decide⟩ ∈ mockSequences ∧
    ((mockSequences.get ⟨1, by decide⟩).taxa = "Novel" ↔
      pct 70 ≤ (mockSequences.get ⟨1, by decide⟩).novelty_score) :=
  ⟨by decide, C3_novel_tag_amended.1 _ (by decide)⟩

/-- Claim C4: against a coherent cache, two consecutive classify calls with
the same raw read and the same bundle return the identical Prediction, the
second call reports a cache hit, and both results equal the fresh
computation, so a hit is indistinguishable in content from a fresh
computation. -/
theorem C4_cache_correctness (b : ModelBundle) (cache : ResultCache) (read : String)
    (p0 : Prediction) (hcoh : CacheCoherent b cache) (hok : runPipeline b read = .ok p0) :
    (classify b cache read).1 = .ok p0 ∧
    (classify b (classify b cache read).2.1 read).1 = .ok p0 ∧
    (classify b (classify b cache read).2.1 read).2.2 = true := by
  cases hl : List.lookup (cacheKey b read) cache with
  | some p =>
    have hpp : p = p0 := by
      have hfr := hcoh read p hl
      rw [hfr] at hok
      injection hok with hok
    subst hpp
    simp [classify, hl]
  | none =>
    have hlk : List.lookup (cacheKey b read) ((cacheKey b read, p0) :: cache) = some p0 := by
      simp [List.lookup]
    simp [classify, hl, hok, hlk]

/-- Claim C4, witness: the cache round trip for the demo bundle on a concrete
read starting from the empty cache. -/
theorem C4_cache_correctness_witness :
    CacheCoherent demoBundle [] ∧
    runPipeline demoBundle ("ACGTACGT") = Except.ok demoPrediction ∧
    (classify demoBundle (classify demoBundle [] ("ACGTACGT")).2.1 ("ACGTACGT")).2.2 = true :=
  ⟨cacheCoherent_nil demoBundle, rfl,
    (C4_cache_correctness demoBundle [] ("ACGTACGT") demoPrediction
      (cacheCoherent_nil demoBundle) rfl).2.2⟩

/-- Claim C5: a scored request keeps the model's ranked best guess in the
returned Prediction; when the top confidence is below the configured
threshold the fallback flag is set and the request is marked FALLBACK_ROUTED,
and when it is at or above the threshold the flag is not set. -/
theorem C5_confidence_gate (b : ModelBundle) (read : String) (p : Prediction)
    (hp : runPipeline b read = .ok p) :
    p.ranked = modelScores b read ∧
    (topConfidence p.ranked < b.fallbackThreshold →
      p.fallback_routed = true ∧ finalState p = ReqState.FALLBACK_ROUTED) ∧
    (b.fallbackThreshold ≤ topConfidence p.ranked →
      p.fallback_routed = false ∧ finalState p = ReqState.RESOLVED) := by
  unfold runPipeline at hp
  cases hcan : canonicalize read b.config with
  | error e => rw [hcan] at hp; exact absurd hp (by simp)
  | ok toks =>
    rw [hcan] at hp
    injection hp with hp
    subst hp
    refine ⟨by simp [modelScores, hcan], ?_, ?_⟩
    · intro h
      simp only at h
      exact ⟨by simp [h], by simp [finalState, h]⟩
    · intro h
      simp only at h
      exact ⟨by simp [not_lt.mpr h], by simp [finalState, not_lt.mpr h]⟩

/-- Claim C5, witness: the demo bundle scores a valid read with top confidence
0.3 against threshold 0.6, and the returned Prediction carries the fallback
flag. -/
theorem C5_confidence_gate_witness :
    runPipeline demoBundle ("ACGTACGT") = Except.ok demoPrediction ∧
    topConfidence demoPrediction.ranked < demoBundle.fallbackThreshold ∧
    demoPrediction.fallback_routed = true :=
  ⟨rfl, by decide,
    ((C5_confidence_gate demoBundle ("ACGTACGT") demoPrediction rfl).2.1 (by decide)).1⟩

/-- Claim C6: canonicalize is a deterministic pure function of the read and
the preprocessing configuration: on identical inputs it yields identical
token sequences. -/
theorem C6_canonicalize_deterministic (r1 r2 : String) (c1 c2 : PreprocConfig)
    (hr : r1 = r2) (hc : c1 = c2) : canonicalize r1 c1 = canonicalize r2 c2 := by
  rw [hr, hc]

/-- Claim C6, witness: determinism at a concrete read and the demo
configuration. -/
theorem C6_canonicalize_deterministic_witness :
    ("ACGTACGT" : String) = "ACGTACGT" ∧ demoConfig = demoConfig ∧
    canonicalize ("ACGTACGT") demoConfig = canonicalize ("ACGTACGT") demoConfig :=
  ⟨rfl, rfl, C6_canonicalize_deterministic ("ACGTACGT") ("ACGTACGT") demoConfig demoConfig rfl rfl⟩

/-- Claim C7: for every taxa value, and so for every sequence whether Novel or
known, the confidences of the classification hierarchy rendered by
SequenceDetail strictly decrease from Kingdom to Family. -/
theorem C7_tax_hierarchy_decreasing :
    ∀ (taxa : String), ((taxHierarchy taxa).map TaxLevel.confidence).Chain' (· > ·) := by
  intro taxa
  by_cases h : taxa = "Novel" <;> simp [taxHierarchy, h] <;> decide

/-- Claim C8: useSequences returns exactly the sequences of the mock dataset
satisfying every active filter, in dataset order, and when no filter is
active it returns the full dataset unchanged. -/
theorem C8_useSequences_postcondition (f : SeqFilters) :
    useSequences f = mockSequences.filter (matchesFilters f) ∧
    (strActive f.search = false ∧ strActive f.cluster = false ∧ strActive f.taxa = false ∧
      natActive f.minQuality = false → useSequences f = mockSequences) := by
  refine ⟨filterSequences_eq f mockSequences, ?_⟩
  rintro ⟨h1, h2, h3, h4⟩
  rw [useSequences, filterSequences_eq]
  have hall : ∀ s ∈ mockSequences, matchesFilters f s = true := by
    intro s _
    simp [matchesFilters, h1, h2, h3, h4]
  rw [List.filter_congr (fun s hs => hall s hs)]
  simp

/-- Claim C8, witness: with the empty filter object the hook returns the whole
dataset. -/
theorem C8_useSequences_witness :
    (strActive noFilters.search = false ∧ strActive noFilters.cluster = false ∧
      strActive noFilters.taxa = false ∧ natActive noFilters.minQuality = false) ∧
    useSequences noFilters = mockSequences :=
  ⟨by decide, (C8_useSequences_postcondition noFilters).2 (by decide)⟩

/-- Claim C9: with pagination enabled, a positive page size and a current page
within range, the rendered rows are exactly the slice of the sorted data
starting at index (page minus one) times page size, of length the footer
range; the page count is the ceiling of data length over page size; the
footer bounds agree with the rendered slice; and the footer is rendered
exactly when there is more than one page. -/
theorem C9_pagination_postcondition {α : Type} (data : List α) (ps p : ℕ) (hps : 0 < ps)
    (hp1 : 1 ≤ p) (hp2 : p ≤ totalPages data.length ps) :
    (paginatedData true p ps data).length = min (p * ps) data.length - (p - 1) * ps ∧
    (∀ i, i < (paginatedData true p ps data).length →
      (paginatedData true p ps data)[i]? = data[(p - 1) * ps + i]?) ∧
    totalPages data.length ps = ⌈(data.length : ℚ) / (ps : ℚ)⌉₊ ∧
    showingFrom p ps = (p - 1) * ps + 1 ∧
    showingTo p ps data.length = (p - 1) * ps + (paginatedData true p ps data).length ∧
    (footerVisible true data.length ps = true ↔ 1 < totalPages data.length ps) := by
  have hsub : (p - 1) * ps = p * ps - ps := by rw [Nat.sub_mul, one_mul]
  have hle : ps ≤ p * ps := Nat.le_mul_of_pos_left ps hp1
  have hpn : p * ps ≤ data.length + ps - 1 := by
    rw [← Nat.le_div_iff_mul_le hps]
    exact hp2
  have hlen : (paginatedData true p ps data).length =
      min (p * ps) data.length - (p - 1) * ps := by
    simp only [paginatedData, if_true, List.length_take, List.length_drop]
    rw [hsub]
    generalize p * ps = q at *
    omega
  refine ⟨hlen, ?_, totalPages_eq_ceil _ _ hps, rfl, ?_, ?_⟩
  · intro i hi
    simp only [paginatedData, if_true] at hi ⊢
    rw [List.getElem?_take, List.getElem?_drop, if_pos]
    rw [List.length_take, List.length_drop] at hi
    omega
  · rw [hlen]
    simp only [showingTo]
    rw [hsub]
    generalize p * ps = q at *
    omega
  · simp only [footerVisible, Bool.true_and, decide_eq_true_eq]

/-- Claim C9, witness: page two of a three-row table with page size two
renders one row. -/
theorem C9_pagination_witness :
    0 < 2 ∧ 1 ≤ 2 ∧ 2 ≤ totalPages ([10, 20, 30] : List ℕ).length 2 ∧
    (paginatedData true 2 2 ([10, 20, 30] : List ℕ)).length =
      min (2 * 2) ([10, 20, 30] : List ℕ).length - (2 - 1) * 2 :=
  ⟨by decide, by decide, by decide,
    (C9_pagination_postcondition ([10, 20, 30] : List ℕ) 2 2 (by decide) (by decide)
      (by decide)).1⟩

/-- Claim C10: when a sort column is selected and its values share one type,
the rendered rows are a permutation of the data prop that is pairwise ordered
by the comparator, non-decreasing ascending or non-increasing descending with
strings compared case-insensitively; the input list itself is returned
untouched when no sort column is selected. -/
theorem C10_sorting_postcondition {α : Type} (key : α → JSVal) (asc : Bool) (data : List α)
    (hhom : (∀ x ∈ data, (key x).isStr = true) ∨ (∀ x ∈ data, (key x).isNum = true)) :
    (sortedData (some key) asc data).Perm data ∧
    (sortedData (some key) asc data).Pairwise
      (fun x y => jsCompare asc (key x) (key y) ≤ 0) ∧
    sortedData none asc data = data := by
  refine ⟨perm_sortBy _ _, ?_, rfl⟩
  have hp : (sortBy (jsLe asc key) data).Pairwise (fun x y => jsLe asc key x y = true) := by
    refine pairwise_sortBy _ _ (fun a _ b _ => jsLe_total asc key a b) ?_
    intro a ha b hb c hc h1 h2
    refine jsLe_trans_of_hom asc key ?_ h1 h2
    rcases hhom with hh | hh
    · exact Or.inl ⟨hh a ha, hh b hb, hh c hc⟩
    · exact Or.inr ⟨hh a ha, hh b hb, hh c hc⟩
  exact hp.imp (fun h => of_decide_eq_true h)

/-- Claim C10, witness: sorting a concrete homogeneous string column yields a
permutation of the data. -/
theorem C10_sorting_witness :
    (∀ x ∈ (["b", "a"] : List String), (JSVal.str x).isStr = true) ∧
    (sortedData (some JSVal.str) true (["b", "a"] : List String)).Perm
      (["b", "a"] : List String) :=
  ⟨by decide, (C10_sorting_postcondition JSVal.str true (["b", "a"]) (Or.inl (by decide))).1⟩
